import Mathlib

/-!
Verification of the dcat-ap-no-validator-service repository.

Part 1 embeds the shapes-graph registry adapter
(`src/dcat_ap_no_validator_service/adapter/shapes_graph_adapter.py`):
the static store `_SHAPES_STORE`, `ShapesGraphAdapter.get_all` and
`ShapesGraphAdapter.get_by_id`.

Part 2 models the `POST /validator` pipeline.  The service code for that
endpoint is not part of the sources here (only its contract tests are), so
those definitions are modelled from the specification, with the external
collaborators (RDF toolkit, SHACL engine, HTTP client) as parameters.
-/

/-- Modelled from the spec: the `ShapesGraphDescription` record of the data
model, an immutable record of eight string fields; the model module itself is
not among the sources, only its use in the adapter. -/
structure ShapesGraphDescription where
  id : String
  name : String
  description : String
  version : String
  url : String
  specification_name : String
  specification_version : String
  specification_url : String
deriving DecidableEq

/-- A raw entry of the static store: the Python dict literal stored under each
key of `_SHAPES_STORE`, with exactly the eight fields of the record. -/
structure StoreEntry where
  id : String
  name : String
  description : String
  version : String
  url : String
  specification_name : String
  specification_version : String
  specification_url : String
deriving DecidableEq

/-- Modelled from the spec: the record constructor `ShapesGraphDescription(**x)`
applied to a store entry, copying each field. -/
def ShapesGraphDescription.ofEntry (e : StoreEntry) : ShapesGraphDescription :=
  { id := e.id
    name := e.name
    description := e.description
    version := e.version
    url := e.url
    specification_name := e.specification_name
    specification_version := e.specification_version
    specification_url := e.specification_url }

/-- The static store `_SHAPES_STORE`, an insertion-ordered dictionary keyed by
id, embedded as an association list in the insertion order of the source. -/
def SHAPES_STORE : List (String × StoreEntry) :=
  [ ("1",
     { id := "1"
       name := "The constraints of DCAT-AP-NO"
       description := "This document specifies the constraints on properties and classes expressed by DCAT-AP-NO in SHACL."
       version := "0.1"
       url := "https://raw.githubusercontent.com/Informasjonsforvaltning/dcat-ap-no/v1.1/shacl/dcat-ap_shacl_shapes_1.1.ttl"
       specification_name := "DCAT-AP-NO"
       specification_version := "1.1"
       specification_url := "https://data.norge.no/specification/dcat-ap-no/v1.1" }),
    ("2",
     { id := "2"
       name := "The constraints of DCAT-AP-NO"
       description := "This document specifies the constraints on properties and classes expressed by DCAT-AP-NO in SHACL."
       version := "0.1"
       url := "https://raw.githubusercontent.com/Informasjonsforvaltning/dcat-ap-no/v2/shacl/DCAT-AP-NO-shacl_shapes_2.00.ttl"
       specification_name := "DCAT-AP-NO"
       specification_version := "2.0"
       specification_url := "https://data.norge.no/specification/dcat-ap-no/" }),
    ("3",
     { id := "3"
       name := "The constraints of SKOS-AP-NO-Begrep"
       description := "This document specifies the constraints on properties and classes expressed by SKOS-AP-NO-Begrep in SHACL."
       version := "0.1"
       url := "https://raw.githubusercontent.com/Informasjonsforvaltning/skos-ap-no-begrep/develop/shacl/SKOS-AP-NO-Begrep-shape_shape_v1.ttl"
       specification_name := "SKOS-AP-NO-Begrep"
       specification_version := "1.0"
       specification_url := "https://data.norge.no/specification/skos-ap-no-begrep/" }) ]

/-- `ShapesGraphAdapter.get_all`: one description per store value, in the
iteration (= insertion) order of the dictionary. -/
def ShapesGraphAdapter.get_all : List ShapesGraphDescription :=
  SHAPES_STORE.map (fun x => ShapesGraphDescription.ofEntry x.2)

/-- `ShapesGraphAdapter.get_by_id`: membership test followed by keyed access,
embedded as an association-list lookup. -/
def ShapesGraphAdapter.get_by_id (id : String) : Option ShapesGraphDescription :=
  match SHAPES_STORE.lookup id with
  | some e => some (ShapesGraphDescription.ofEntry e)
  | none => none

/-- The module-level mutable state visible to the adapter: the store contents.
The Python methods read this state and never assign to it; the stateful
embedding below makes that explicit. -/
structure AdapterState where
  store : List (String × StoreEntry)
deriving DecidableEq

/-- The state at process start: the store as initialized from the fixed table. -/
def initState : AdapterState := { store := SHAPES_STORE }

/-- `get_all` as a state transformer: reads the store, returns it unchanged. -/
def get_all_st (st : AdapterState) : List ShapesGraphDescription × AdapterState :=
  (st.store.map (fun x => ShapesGraphDescription.ofEntry x.2), st)

/-- `get_by_id` as a state transformer: reads the store, returns it unchanged. -/
def get_by_id_st (st : AdapterState) (id : String) :
    Option ShapesGraphDescription × AdapterState :=
  (match st.store.lookup id with
   | some e => some (ShapesGraphDescription.ofEntry e)
   | none => none, st)

/-- The operations a caller of the adapter can perform. -/
inductive AdapterOp where
  | getAll : AdapterOp
  | getById (id : String) : AdapterOp

/-- State effect of one adapter operation. -/
def applyOp (st : AdapterState) : AdapterOp → AdapterState
  | .getAll => (get_all_st st).2
  | .getById id => (get_by_id_st st id).2

/-- State effect of a sequence of adapter operations. -/
def runOps (st : AdapterState) (ops : List AdapterOp) : AdapterState :=
  ops.foldl applyOp st

theorem applyOp_fix (st : AdapterState) (op : AdapterOp) : applyOp st op = st := by
  cases op <;> rfl

theorem runOps_fix (st : AdapterState) (ops : List AdapterOp) : runOps st ops = st := by
  induction ops with
  | nil => rfl
  | cons op ops ih =>
      simp [runOps, List.foldl] at ih ⊢
      simp [applyOp_fix, ih]

/-- C7: for every string id, `get_by_id` returns the description constructed
from the static store entry keyed by id when present, and `none` when absent;
as a state transformer it leaves the store untouched (no side effects), and it
is total (never fails). -/
theorem get_by_id_correct (id : String) :
    ShapesGraphAdapter.get_by_id id =
      (SHAPES_STORE.lookup id).map ShapesGraphDescription.ofEntry
    ∧ (get_by_id_st initState id).1 = ShapesGraphAdapter.get_by_id id
    ∧ (get_by_id_st initState id).2 = initState := by
  refine ⟨?_, rfl, rfl⟩
  unfold ShapesGraphAdapter.get_by_id
  cases SHAPES_STORE.lookup id <;> rfl

/-- C7 witness: at the concrete ids "2" (present) and "9" (absent). -/
theorem get_by_id_correct_witness :
    ShapesGraphAdapter.get_by_id "2" =
      (SHAPES_STORE.lookup "2").map ShapesGraphDescription.ofEntry
    ∧ ShapesGraphAdapter.get_by_id "9" =
      (SHAPES_STORE.lookup "9").map ShapesGraphDescription.ofEntry :=
  ⟨(get_by_id_correct "2").1, (get_by_id_correct "9").1⟩

/-- C8: `get_all` returns one description per store entry, in the insertion
order of the static table (ids "1", "2", "3"), and leaves the store untouched. -/
theorem get_all_correct :
    ShapesGraphAdapter.get_all =
      SHAPES_STORE.map (fun x => ShapesGraphDescription.ofEntry x.2)
    ∧ ShapesGraphAdapter.get_all.map (fun d => d.id) = ["1", "2", "3"]
    ∧ ShapesGraphAdapter.get_all.length = SHAPES_STORE.length
    ∧ (get_all_st initState).1 = ShapesGraphAdapter.get_all
    ∧ (get_all_st initState).2 = initState :=
  ⟨rfl, rfl, rfl, rfl, rfl⟩

/-- C9: no sequence of adapter operations changes the store, and after any
such sequence both observations are what they are at process start — the
registry is read-only for the process lifetime. -/
theorem registry_read_only (ops : List AdapterOp) :
    runOps initState ops = initState
    ∧ (get_all_st (runOps initState ops)).1 = ShapesGraphAdapter.get_all
    ∧ ∀ id, (get_by_id_st (runOps initState ops) id).1 =
        ShapesGraphAdapter.get_by_id id := by
  refine ⟨runOps_fix initState ops, ?_, ?_⟩
  · rw [runOps_fix]; rfl
  · intro id
    rw [runOps_fix]
    unfold get_by_id_st ShapesGraphAdapter.get_by_id initState
    cases SHAPES_STORE.lookup id <;> rfl

/-- C10: `get_by_id` is exactly lookup by the id field in the sequence returned
by `get_all`: the two fetch methods agree, each store key occurs as the id of
exactly one element of `get_all` (ids are pairwise distinct and are the store
keys in order), and a non-key yields `none`. -/
theorem get_by_id_get_all_agree :
    (∀ id, ShapesGraphAdapter.get_by_id id =
        ShapesGraphAdapter.get_all.find? (fun d => d.id == id))
    ∧ (ShapesGraphAdapter.get_all.map (fun d => d.id)).Nodup
    ∧ SHAPES_STORE.map Prod.fst = ShapesGraphAdapter.get_all.map (fun d => d.id) := by
  refine ⟨?_, by decide, rfl⟩
  intro id
  by_cases h1 : id = "1"
  · subst h1; rfl
  · by_cases h2 : id = "2"
    · subst h2; rfl
    · by_cases h3 : id = "3"
      · subst h3; rfl
      · show (match SHAPES_STORE.lookup id with
          | some e => some (ShapesGraphDescription.ofEntry e)
          | none => none) = _
        have l1 : (id == "1") = false := by
          simp [beq_iff_eq]; exact h1
        have l2 : (id == "2") = false := by
          simp [beq_iff_eq]; exact h2
        have l3 : (id == "3") = false := by
          simp [beq_iff_eq]; exact h3
        have r1 : ("1" == id) = false := by
          simp [beq_iff_eq]; intro h; exact h1 h.symm
        have r2 : ("2" == id) = false := by
          simp [beq_iff_eq]; intro h; exact h2 h.symm
        have r3 : ("3" == id) = false := by
          simp [beq_iff_eq]; intro h; exact h3 h.symm
        simp [SHAPES_STORE, ShapesGraphAdapter.get_all, List.lookup, List.find?,
          l1, l2, l3, r1, r2, r3, ShapesGraphDescription.ofEntry]

/-!
Part 2: the `POST /validator` pipeline, modelled from the spec.  RDF graphs
are lists of triples over an abstract node type; the external RDF toolkit,
SHACL engine and HTTP client are parameters (a `Collaborators` record), since
the spec delegates them and only fixes their interface.
-/

/-- The two RDF serializations the endpoint supports. -/
inductive Serialization where
  | turtle : Serialization
  | jsonld : Serialization
deriving DecidableEq

/-- An RDF node: IRI, literal, or blank node (blank nodes carry a local
numeric label, the only part an isomorphism may rename). -/
inductive Node where
  | iri : String → Node
  | lit : String → Node
  | blank : Nat → Node
deriving DecidableEq

/-- An RDF triple. -/
structure Triple where
  s : Node
  p : Node
  o : Node
deriving DecidableEq

/-- An RDF graph: a set of triples, represented as a list with no implied
ordering (comparisons below are set-wise). -/
abbrev Graph := List Triple

/-- Raw bytes of an HTTP body or multipart part. -/
abbrev Bytes := List Nat

/-- Rename the blank-node labels of a node. -/
def Node.rename (f : Nat → Nat) : Node → Node
  | .iri s => .iri s
  | .lit s => .lit s
  | .blank n => .blank (f n)

/-- Rename the blank-node labels of a triple. -/
def Triple.rename (f : Nat → Nat) (t : Triple) : Triple :=
  { s := t.s.rename f, p := t.p.rename f, o := t.o.rename f }

/-- Rename the blank-node labels throughout a graph. -/
def Graph.rename (f : Nat → Nat) (g : Graph) : Graph :=
  g.map (Triple.rename f)

/-- Two graphs hold the same triples (graphs are sets; list order ignored). -/
def Graph.setEq (g1 g2 : Graph) : Prop :=
  ∀ t : Triple, t ∈ g1 ↔ t ∈ g2

/-- Graph isomorphism up to blank-node identifier renaming: some injective
relabelling of blank nodes carries one graph onto the other. -/
def Graph.iso (g1 g2 : Graph) : Prop :=
  ∃ f : Nat → Nat, Function.Injective f ∧ Graph.setEq (Graph.rename f g1) g2

theorem Node.rename_identity (n : Node) : Node.rename id n = n := by
  cases n <;> rfl

theorem Graph.rename_id (g : Graph) : Graph.rename id g = g := by
  induction g with
  | nil => rfl
  | cons t ts ih =>
      simp [Graph.rename, List.map] at ih ⊢
      exact ⟨by simp [Triple.rename, Node.rename_identity], ih⟩

theorem Graph.iso_refl (g : Graph) : Graph.iso g g :=
  ⟨id, fun _ _ h => h, by rw [Graph.rename_id]; intro t; exact Iff.rfl⟩

/-- The result of a SHACL validation run: conformance flag plus report graph. -/
structure ValidationReport where
  conforms : Bool
  report_graph : Graph
deriving DecidableEq

/-- Modelled from the spec: the external collaborators of the pipeline — the
HTTP client (`fetch`, `none` = network failure or non-2xx), the RDF toolkit
(`parse`, `none` = parse failure; `serializeGraph`), the content decoder
(`gunzip`, `none` = corrupt encoded data) and the SHACL engine (`shacl`, a
pure function of the two graphs). -/
structure Collaborators where
  fetch : String → Option Bytes
  parse : Serialization → Bytes → Option Graph
  serializeGraph : Serialization → Graph → Bytes
  gunzip : Bytes → Option Bytes
  shacl : Graph → Graph → ValidationReport

/-- Modelled from the spec: the error taxonomy of §7. -/
inductive ErrKind where
  | badRequest : ErrKind
  | invalidRDF : ErrKind
  | unreachableSource : ErrKind
  | unknownShapesVersion : ErrKind
  | invalidShapes : ErrKind
deriving DecidableEq

/-- Which error kinds are attributable to client input (everything except a
bad shapes graph / engine failure). -/
def ErrKind.isClientError : ErrKind → Bool
  | .invalidShapes => false
  | _ => true

/-- Modelled from the spec: the HTTP status of each error kind (§7 table). -/
def ErrKind.toStatus : ErrKind → Nat
  | .invalidShapes => 500
  | _ => 400

/-- Modelled from the spec: the short diagnostic message of each error kind. -/
def ErrKind.message : ErrKind → String
  | .badRequest => "Bad request"
  | .invalidRDF => "Data graph is not parsable RDF"
  | .unreachableSource => "Could not fetch remote graph"
  | .unknownShapesVersion => "Unknown shapes graph version"
  | .invalidShapes => "Shapes graph is not usable"

/-- Modelled from the spec: one part of the multipart request body — the three
data-source kinds plus the `version` selector part. -/
inductive ReqPart where
  | file (filename : String) (contentType : Option String)
      (contentEncoding : Option String) (content : Bytes) : ReqPart
  | text (contentType : Option String) (content : Bytes) : ReqPart
  | url (href : String) : ReqPart
  | version (v : String) : ReqPart
deriving DecidableEq

/-- Modelled from the spec: a request to `POST /validator`; `body = none`
stands for a malformed / non-multipart body. -/
structure Request where
  body : Option (List ReqPart)
  accept : Option String
deriving DecidableEq

/-- An HTTP response. -/
structure Response where
  status : Nat
  contentType : String
  respBody : Bytes
deriving DecidableEq

/-- String to bytes, for diagnostic message bodies. -/
def strToBytes (s : String) : Bytes :=
  s.data.map Char.toNat

/-- Is this part one of the three data-source kinds? -/
def isDataPart : ReqPart → Bool
  | .version _ => false
  | _ => true

/-- The data-source parts of a body. -/
def dataParts (ps : List ReqPart) : List ReqPart :=
  ps.filter isDataPart

/-- The shapes version selected by the body: the first `version` part, or
"1" when absent. -/
def versionOf (ps : List ReqPart) : String :=
  match ps.findSome? (fun p => match p with | .version v => some v | _ => none) with
  | some v => v
  | none => "1"

/-- Map a declared media type to a serialization; `none` = unsupported. -/
def mediaTypeToSerialization : String → Option Serialization
  | "text/turtle" => some .turtle
  | "application/ld+json" => some .jsonld
  | _ => none

/-- Does the string end with the given suffix?  (Computed on the character
lists, so that it evaluates inside the kernel.) -/
def strEndsWith (s suffix : String) : Bool :=
  List.isSuffixOf suffix.data s.data

/-- Serialization inferred from a filename extension. -/
def extSerialization (filename : String) : Option Serialization :=
  if strEndsWith filename ".ttl" then some .turtle
  else if strEndsWith filename ".jsonld" then some .jsonld
  else if strEndsWith filename ".json" then some .jsonld
  else none

/-- Modelled from the spec: format-detection precedence — explicit part
content-type first (unsupported values rejected), then filename extension,
then the turtle fallback. -/
def detectFormat (contentType : Option String) (filename : Option String) :
    Except ErrKind Serialization :=
  match contentType with
  | some ct =>
      match mediaTypeToSerialization ct with
      | some ser => .ok ser
      | none => .error .badRequest
  | none =>
      match filename with
      | some fn => .ok ((extSerialization fn).getD .turtle)
      | none => .ok .turtle

/-- Modelled from the spec: transparent decoding of a content-encoding marker
before parsing; a gzip part is inflated, an unknown coding is rejected. -/
def decodeContent (c : Collaborators) (enc : Option String) (bs : Bytes) :
    Except ErrKind Bytes :=
  match enc with
  | none => .ok bs
  | some "gzip" =>
      match c.gunzip bs with
      | some out => .ok out
      | none => .error .badRequest
  | some _ => .error .badRequest

/-- Modelled from the spec: resolve one data-source part to a parsed data
graph (the GraphSource Resolver and RDF Loader stages). -/
def loadDataGraph (c : Collaborators) : ReqPart → Except ErrKind Graph
  | .file fn ct enc bs =>
      match detectFormat ct (some fn) with
      | .error e => .error e
      | .ok ser =>
          match decodeContent c enc bs with
          | .error e => .error e
          | .ok raw =>
              match c.parse ser raw with
              | some g => .ok g
              | none => .error .invalidRDF
  | .text ct bs =>
      match detectFormat ct none with
      | .error e => .error e
      | .ok ser =>
          match c.parse ser bs with
          | some g => .ok g
          | none => .error .invalidRDF
  | .url href =>
      match c.fetch href with
      | none => .error .unreachableSource
      | some bs =>
          match c.parse ((extSerialization href).getD .turtle) bs with
          | some g => .ok g
          | none => .error .invalidRDF
  | .version _ => .error .badRequest

/-- Modelled from the spec: the Shapes Loader — registry lookup through the
real adapter, then fetch and parse of the shapes document; its own failures
are server-side (`invalidShapes`), not client errors. -/
def loadShapesGraph (c : Collaborators) (ver : String) : Except ErrKind Graph :=
  match ShapesGraphAdapter.get_by_id ver with
  | none => .error .unknownShapesVersion
  | some desc =>
      match c.fetch desc.url with
      | none => .error .invalidShapes
      | some bs =>
          match c.parse .turtle bs with
          | some g => .ok g
          | none => .error .invalidShapes

/-- Modelled from the spec: the Response Negotiator's media-type choice —
`application/ld+json` when asked for, otherwise the turtle default (absent or
unsupported `Accept` values fall back rather than fail). -/
def negotiate (accept : Option String) : Serialization :=
  match accept with
  | some "application/ld+json" => .jsonld
  | _ => .turtle

/-- The response content-type for each output serialization. -/
def contentTypeOf : Serialization → String
  | .turtle => "text/turtle"
  | .jsonld => "application/ld+json"

/-- Modelled from the spec: the validation pipeline proper — resolve exactly
one data-source part, load data and shapes graphs, invoke the SHACL engine. -/
def validateCore (c : Collaborators) (req : Request) : Except ErrKind ValidationReport :=
  match req.body with
  | none => .error .badRequest
  | some parts =>
      match dataParts parts with
      | [p] =>
          match loadDataGraph c p with
          | .error e => .error e
          | .ok dataG =>
              match loadShapesGraph c (versionOf parts) with
              | .error e => .error e
              | .ok shapesG => .ok (c.shacl dataG shapesG)
      | _ => .error .badRequest

/-- The pipeline result paired with the negotiated output serialization. -/
def processRequest (c : Collaborators) (req : Request) :
    Except ErrKind (ValidationReport × Serialization) :=
  match validateCore c req with
  | .ok rep => .ok (rep, negotiate req.accept)
  | .error e => .error e

/-- Modelled from the spec: the HTTP boundary — 200 with the serialized report
on success, the error kind's status and short diagnostic message on failure. -/
def handle (c : Collaborators) (req : Request) : Response :=
  match processRequest c req with
  | .ok (rep, ser) =>
      { status := 200
        contentType := contentTypeOf ser
        respBody := c.serializeGraph ser rep.report_graph }
  | .error e =>
      { status := e.toStatus
        contentType := "text/plain"
        respBody := strToBytes e.message }

theorem handle_of_error (c : Collaborators) (req : Request) (e : ErrKind)
    (h : processRequest c req = .error e) :
    handle c req =
      { status := e.toStatus, contentType := "text/plain",
        respBody := strToBytes e.message } := by
  unfold handle
  rw [h]

theorem handle_of_ok (c : Collaborators) (req : Request)
    (rep : ValidationReport) (ser : Serialization)
    (h : processRequest c req = .ok (rep, ser)) :
    handle c req =
      { status := 200, contentType := contentTypeOf ser,
        respBody := c.serializeGraph ser rep.report_graph } := by
  unfold handle
  rw [h]

theorem processRequest_ok_negotiated (c : Collaborators) (req : Request)
    (rep : ValidationReport) (ser : Serialization)
    (h : processRequest c req = .ok (rep, ser)) :
    ser = negotiate req.accept ∧ validateCore c req = .ok rep := by
  unfold processRequest at h
  cases hv : validateCore c req with
  | ok r =>
      rw [hv] at h
      simp only [Except.ok.injEq, Prod.mk.injEq] at h
      exact ⟨h.2.symm, by rw [h.1]⟩
  | error e =>
      rw [hv] at h
      simp at h

/-- C1: whenever the pipeline fails with an error attributable to client input
(bad request, unparsable data RDF, unreachable data URL, unknown shapes
version), the response carries HTTP status 400 and the kind's short diagnostic
message — never a 500. -/
theorem client_errors_mapped_to_400 (c : Collaborators) (req : Request)
    (e : ErrKind) (herr : processRequest c req = .error e)
    (hclient : e.isClientError = true) :
    (handle c req).status = 400
    ∧ (handle c req).status ≠ 500
    ∧ (handle c req).respBody = strToBytes e.message
    ∧ e.message ≠ "" := by
  rw [handle_of_error c req e herr]
  cases e <;> simp_all [ErrKind.isClientError, ErrKind.toStatus, ErrKind.message]

/-- Collaborators whose HTTP client fails on every URL. -/
def cNet : Collaborators :=
  { fetch := fun _ => none
    parse := fun _ _ => none
    serializeGraph := fun _ _ => []
    gunzip := fun _ => none
    shacl := fun _ _ => { conforms := true, report_graph := [] } }

/-- A request referring to a data graph by URL only. -/
def reqUrl0 : Request :=
  { body := some [ReqPart.url "https://example.org/missing.ttl"], accept := none }

/-- C1 witness: a request whose data URL is unreachable gets a 400 with the
diagnostic message, not a 500. -/
theorem client_errors_mapped_to_400_witness :
    (handle cNet reqUrl0).status = 400
    ∧ (handle cNet reqUrl0).status ≠ 500
    ∧ (handle cNet reqUrl0).respBody = strToBytes ErrKind.unreachableSource.message
    ∧ ErrKind.unreachableSource.message ≠ "" :=
  client_errors_mapped_to_400 cNet reqUrl0 ErrKind.unreachableSource rfl rfl

/-- C2: whenever validation runs to completion the response status is 200,
whatever the report's conformance flag is. -/
theorem completed_validation_is_200 (c : Collaborators) (req : Request)
    (rep : ValidationReport) (ser : Serialization)
    (h : processRequest c req = .ok (rep, ser)) :
    (handle c req).status = 200 := by
  rw [handle_of_ok c req rep ser h]

/-- Collaborators that accept every input and report non-conformance with an
empty report graph. -/
def cOk : Collaborators :=
  { fetch := fun _ => some []
    parse := fun _ _ => some []
    serializeGraph := fun _ _ => []
    gunzip := fun bs => some bs
    shacl := fun _ _ => { conforms := false, report_graph := [] } }

/-- A file-upload request with an explicit turtle content-type. -/
def reqFile0 : Request :=
  { body := some [ReqPart.file "catalog_1_minimal.ttl" (some "text/turtle") none [1, 2, 3]]
    accept := none }

/-- C2 witness: a completed run that finds the data non-conformant still
answers 200. -/
theorem completed_validation_is_200_witness :
    (handle cOk reqFile0).status = 200
    ∧ processRequest cOk reqFile0 =
        .ok ({ conforms := false, report_graph := [] }, Serialization.turtle) :=
  ⟨completed_validation_is_200 cOk reqFile0
      { conforms := false, report_graph := [] } Serialization.turtle rfl, rfl⟩

theorem negotiate_other (a : String) (h : a ≠ "application/ld+json") :
    negotiate (some a) = Serialization.turtle := by
  unfold negotiate
  split <;> simp_all

/-- C3: the output serialization is negotiated from the Accept header — an
`application/ld+json` Accept yields that content-type and a JSON-LD body that
parses back to a graph isomorphic to what the turtle serialization of the same
report parses to, while an absent or unsupported Accept falls back to
`text/turtle` for both body and content-type instead of failing.  The two
parse hypotheses are the RDF toolkit's serialize/parse round-trip contract at
this report graph. -/
theorem accept_header_negotiation (c : Collaborators) (req : Request)
    (rep : ValidationReport) (ser : Serialization)
    (hok : processRequest c req = .ok (rep, ser))
    (hj : c.parse .jsonld (c.serializeGraph .jsonld rep.report_graph) =
        some rep.report_graph)
    (ht : c.parse .turtle (c.serializeGraph .turtle rep.report_graph) =
        some rep.report_graph) :
    (req.accept = some "application/ld+json" →
        (handle c req).contentType = "application/ld+json"
        ∧ c.parse .jsonld (handle c req).respBody = some rep.report_graph
        ∧ ∃ g, c.parse .turtle (c.serializeGraph .turtle rep.report_graph) = some g
            ∧ Graph.iso rep.report_graph g)
    ∧ ((req.accept = none ∨
          ∀ a, req.accept = some a →
            a ≠ "application/ld+json" ∧ a ≠ "text/turtle") →
        (handle c req).contentType = "text/turtle"
        ∧ (handle c req).respBody = c.serializeGraph .turtle rep.report_graph) := by
  obtain ⟨hserEq, -⟩ := processRequest_ok_negotiated c req rep ser hok
  constructor
  · intro hacc
    have hser : ser = Serialization.jsonld := by rw [hserEq, hacc]; rfl
    refine ⟨?_, ?_, rep.report_graph, ht, Graph.iso_refl _⟩
    · rw [handle_of_ok c req rep ser hok, hser]; rfl
    · rw [handle_of_ok c req rep ser hok, hser]
      exact hj
  · intro hacc
    have hser : ser = Serialization.turtle := by
      rw [hserEq]
      cases hacc with
      | inl hnone => rw [hnone]; rfl
      | inr hother =>
          cases ha : req.accept with
          | none => rfl
          | some a => exact negotiate_other a (hother a ha).1
    exact ⟨by rw [handle_of_ok c req rep ser hok, hser]; rfl,
      by rw [handle_of_ok c req rep ser hok, hser]⟩

/-- The C2 witness request with an `application/ld+json` Accept header. -/
def reqFileJson : Request :=
  { body := some [ReqPart.file "catalog_1_minimal.ttl" (some "text/turtle") none [1, 2, 3]]
    accept := some "application/ld+json" }

/-- The C2 witness request with an unsupported Accept header. -/
def reqFileWeird : Request :=
  { body := some [ReqPart.file "catalog_1_minimal.ttl" (some "text/turtle") none [1, 2, 3]]
    accept := some "text/html" }

/-- C3 witness: a JSON-LD Accept yields a JSON-LD content-type, while an
unsupported or absent Accept falls back to turtle. -/
theorem accept_header_negotiation_witness :
    (handle cOk reqFileJson).contentType = "application/ld+json"
    ∧ (handle cOk reqFileWeird).contentType = "text/turtle"
    ∧ (handle cOk reqFile0).contentType = "text/turtle" :=
  ⟨((accept_header_negotiation cOk reqFileJson
        { conforms := false, report_graph := [] } Serialization.jsonld
        rfl rfl rfl).1 rfl).1,
   ((accept_header_negotiation cOk reqFileWeird
        { conforms := false, report_graph := [] } Serialization.turtle
        rfl rfl rfl).2 (Or.inr (fun a ha => by
          injection ha with h
          subst h
          exact ⟨by decide, by decide⟩))).1,
   ((accept_header_negotiation cOk reqFile0
        { conforms := false, report_graph := [] } Serialization.turtle
        rfl rfl rfl).2 (Or.inl rfl)).1⟩

/-- C4: submitting the same parsed data graph by file upload, by inline text
part, or by URL reference yields pairwise isomorphic validation reports — the
delivery mechanism does not alter validation semantics.  The hypotheses say
the three deliveries carry the same graph `g` and that the shapes graph for
the chosen version loads. -/
theorem delivery_mechanism_invariance (c : Collaborators) (g sg : Graph)
    (bf bt bu : Bytes) (fn href ver : String) (acc : Option String)
    (hshapes : loadShapesGraph c ver = Except.ok sg)
    (hfile : c.parse ((extSerialization fn).getD Serialization.turtle) bf = some g)
    (htext : c.parse Serialization.turtle bt = some g)
    (hfetch : c.fetch href = some bu)
    (hurl : c.parse ((extSerialization href).getD Serialization.turtle) bu = some g) :
    ∃ repF repT repU : ValidationReport,
      processRequest c
          { body := some [ReqPart.file fn none none bf, ReqPart.version ver],
            accept := acc } = Except.ok (repF, negotiate acc)
      ∧ processRequest c
          { body := some [ReqPart.text (some "text/turtle") bt, ReqPart.version ver],
            accept := acc } = Except.ok (repT, negotiate acc)
      ∧ processRequest c
          { body := some [ReqPart.url href, ReqPart.version ver],
            accept := acc } = Except.ok (repU, negotiate acc)
      ∧ Graph.iso repF.report_graph repT.report_graph
      ∧ Graph.iso repT.report_graph repU.report_graph
      ∧ Graph.iso repF.report_graph repU.report_graph := by
  refine ⟨c.shacl g sg, c.shacl g sg, c.shacl g sg, ?_, ?_, ?_,
    Graph.iso_refl _, Graph.iso_refl _, Graph.iso_refl _⟩
  · simp [processRequest, validateCore, dataParts, List.filter, isDataPart,
      versionOf, List.findSome?, loadDataGraph, detectFormat, decodeContent,
      mediaTypeToSerialization, hfile, hshapes]
  · simp [processRequest, validateCore, dataParts, List.filter, isDataPart,
      versionOf, List.findSome?, loadDataGraph, detectFormat, decodeContent,
      mediaTypeToSerialization, htext, hshapes]
  · simp [processRequest, validateCore, dataParts, List.filter, isDataPart,
      versionOf, List.findSome?, loadDataGraph, detectFormat, decodeContent,
      mediaTypeToSerialization, hfetch, hurl, hshapes]

/-- C4 witness: concrete collaborators and bytes delivering the empty graph by
all three mechanisms. -/
theorem delivery_mechanism_invariance_witness :
    ∃ repF repT repU : ValidationReport,
      processRequest cOk
          { body := some [ReqPart.file "a.ttl" none none [0], ReqPart.version "1"],
            accept := none } = Except.ok (repF, negotiate none)
      ∧ processRequest cOk
          { body := some [ReqPart.text (some "text/turtle") [1], ReqPart.version "1"],
            accept := none } = Except.ok (repT, negotiate none)
      ∧ processRequest cOk
          { body := some [ReqPart.url "http://e/x.ttl", ReqPart.version "1"],
            accept := none } = Except.ok (repU, negotiate none)
      ∧ Graph.iso repF.report_graph repT.report_graph
      ∧ Graph.iso repT.report_graph repU.report_graph
      ∧ Graph.iso repF.report_graph repU.report_graph :=
  delivery_mechanism_invariance cOk [] [] [0] [1] [] "a.ttl" "http://e/x.ttl" "1"
    none rfl rfl rfl rfl rfl

/-- C6: a data-source part marked `Content-Encoding: gzip` is transparently
inflated before RDF parsing — the whole response to the gzip-encoded upload
equals the response to the identical unencoded upload, and when that
validation completes the status is 200.  The hypothesis says the encoded
bytes inflate to the plain bytes. -/
theorem content_encoding_transparent (c : Collaborators)
    (fn : String) (ct : Option String) (raw gz : Bytes)
    (ver : String) (acc : Option String)
    (hgz : c.gunzip gz = some raw) :
    handle c
        { body := some [ReqPart.file fn ct (some "gzip") gz, ReqPart.version ver],
          accept := acc }
      = handle c
        { body := some [ReqPart.file fn ct none raw, ReqPart.version ver],
          accept := acc }
    ∧ (∀ rep ser,
        processRequest c
            { body := some [ReqPart.file fn ct none raw, ReqPart.version ver],
              accept := acc } = Except.ok (rep, ser) →
        (handle c
            { body := some [ReqPart.file fn ct (some "gzip") gz, ReqPart.version ver],
              accept := acc }).status = 200) := by
  have hload :
      loadDataGraph c (ReqPart.file fn ct (some "gzip") gz)
        = loadDataGraph c (ReqPart.file fn ct none raw) := by
    unfold loadDataGraph
    simp [decodeContent, hgz]
  have hproc :
      processRequest c
          { body := some [ReqPart.file fn ct (some "gzip") gz, ReqPart.version ver],
            accept := acc }
        = processRequest c
          { body := some [ReqPart.file fn ct none raw, ReqPart.version ver],
            accept := acc } := by
    unfold processRequest validateCore
    simp [dataParts, List.filter, isDataPart, versionOf, List.findSome?, hload]
  refine ⟨?_, ?_⟩
  · unfold handle
    rw [hproc]
  · intro rep ser hok
    unfold handle
    rw [hproc, hok]

/-- Bytes standing for a gzip-compressed copy of `[7]`, and collaborators
whose inflater maps them back. -/
def cGz : Collaborators :=
  { fetch := fun _ => some []
    parse := fun _ _ => some []
    serializeGraph := fun _ _ => []
    gunzip := fun bs => if bs = [3] then some [7] else none
    shacl := fun _ _ => { conforms := true, report_graph := [] } }

/-- C6 witness: a gzip-encoded part behaves exactly like the plain part. -/
theorem content_encoding_transparent_witness :
    handle cGz
        { body := some [ReqPart.file "b.ttl" none (some "gzip") [3],
            ReqPart.version "1"],
          accept := none }
      = handle cGz
        { body := some [ReqPart.file "b.ttl" none none [7], ReqPart.version "1"],
          accept := none }
    ∧ (∀ rep ser,
        processRequest cGz
            { body := some [ReqPart.file "b.ttl" none none [7], ReqPart.version "1"],
              accept := none } = Except.ok (rep, ser) →
        (handle cGz
            { body := some [ReqPart.file "b.ttl" none (some "gzip") [3],
                ReqPart.version "1"],
              accept := none }).status = 200) :=
  content_encoding_transparent cGz "b.ttl" none [7] [3] "1" none rfl

/-- A node of the SHACL vocabulary. -/
def shNode (s : String) : Node :=
  Node.iri ("http://www.w3.org/ns/shacl#" ++ s)

/-- A node of the Dublin Core terms vocabulary. -/
def dctNode (s : String) : Node :=
  Node.iri ("http://purl.org/dc/terms/" ++ s)

/-- The rdf:type predicate node. -/
def rdfTypeNode : Node :=
  Node.iri "http://www.w3.org/1999/02/22-rdf-syntax-ns#type"

/-- Modelled from the spec: the validation report the SHACL engine produces
for the minimal catalog missing a dataset description and typing of its
publisher, validated against the version-"2" shapes — transcribed from the
spec's concrete scenario (the engine itself is an external collaborator). -/
def expectedReportGraph : Graph :=
  [ ⟨.blank 0, rdfTypeNode, shNode "ValidationReport"⟩,
    ⟨.blank 0, shNode "conforms", .lit "false"⟩,
    ⟨.blank 0, shNode "result", .blank 1⟩,
    ⟨.blank 0, shNode "result", .blank 3⟩,
    ⟨.blank 1, rdfTypeNode, shNode "ValidationResult"⟩,
    ⟨.blank 1, shNode "focusNode", .iri "http://dataset-publisher:8080/datasets/1"⟩,
    ⟨.blank 1, shNode "resultMessage",
      .lit "Less than 1 values on <http://dataset-publisher:8080/datasets/1>->dct:description"⟩,
    ⟨.blank 1, shNode "resultPath", dctNode "description"⟩,
    ⟨.blank 1, shNode "resultSeverity", shNode "Violation"⟩,
    ⟨.blank 1, shNode "sourceConstraintComponent", shNode "MinCountConstraintComponent"⟩,
    ⟨.blank 1, shNode "sourceShape", .blank 2⟩,
    ⟨.blank 2, shNode "minCount", .lit "1"⟩,
    ⟨.blank 2, shNode "nodeKind", shNode "Literal"⟩,
    ⟨.blank 2, shNode "path", dctNode "description"⟩,
    ⟨.blank 2, shNode "severity", shNode "Violation"⟩,
    ⟨.blank 3, rdfTypeNode, shNode "ValidationResult"⟩,
    ⟨.blank 3, shNode "focusNode", .iri "http://dataset-publisher:8080/catalogs/1"⟩,
    ⟨.blank 3, shNode "resultMessage", .lit "Value does not have class foaf:Agent"⟩,
    ⟨.blank 3, shNode "resultPath", dctNode "publisher"⟩,
    ⟨.blank 3, shNode "resultSeverity", shNode "Violation"⟩,
    ⟨.blank 3, shNode "sourceConstraintComponent", shNode "ClassConstraintComponent"⟩,
    ⟨.blank 3, shNode "sourceShape", .blank 4⟩,
    ⟨.blank 3, shNode "value",
      .iri "https://organization-catalogue.fellesdatakatalog.digdir.no/organizations/961181399"⟩,
    ⟨.blank 4, shNode "class", .iri "http://xmlns.com/foaf/0.1/Agent"⟩,
    ⟨.blank 4, shNode "maxCount", .lit "1"⟩,
    ⟨.blank 4, shNode "minCount", .lit "1"⟩,
    ⟨.blank 4, shNode "path", dctNode "publisher"⟩,
    ⟨.blank 4, shNode "severity", shNode "Violation"⟩ ]

/-- The distinct nodes declared `sh:ValidationResult` in a report graph. -/
def validationResultNodes (g : Graph) : List Node :=
  (g.filterMap (fun t =>
    if t.p = rdfTypeNode ∧ t.o = shNode "ValidationResult" then some t.s
    else none)).dedup

/-- The validation-result nodes of `g` carrying the given source constraint
component and result path. -/
def resultsWith (g : Graph) (comp path : Node) : List Node :=
  (validationResultNodes g).filter (fun n =>
    List.contains g ⟨n, shNode "sourceConstraintComponent", comp⟩
    && List.contains g ⟨n, shNode "resultPath", path⟩)

/-- C5: posting the minimal catalog whose dataset lacks `dct:description` and
whose publisher lacks `foaf:Agent` typing, with version "2", yields a 200 with
a report that does not conform and contains exactly two validation results —
one `sh:MinCountConstraintComponent` on path `dct:description` and one
`sh:ClassConstraintComponent` on path `dct:publisher`.  The hypotheses fix the
external collaborators at this scenario: the catalog bytes parse, the
version-"2" shapes load, and the SHACL engine reports the scenario's graph. -/
theorem minimal_catalog_two_violations (c : Collaborators)
    (catalogBytes : Bytes) (dataG shapesG : Graph) (acc : Option String)
    (hparse : c.parse Serialization.turtle catalogBytes = some dataG)
    (hshapes : loadShapesGraph c "2" = Except.ok shapesG)
    (hengine : c.shacl dataG shapesG =
        { conforms := false, report_graph := expectedReportGraph }) :
    (handle c
        { body := some [ReqPart.file "tests/files/catalog_2_not_valid.ttl" none none catalogBytes,
            ReqPart.version "2"],
          accept := acc }).status = 200
    ∧ validateCore c
        { body := some [ReqPart.file "tests/files/catalog_2_not_valid.ttl" none none catalogBytes,
            ReqPart.version "2"],
          accept := acc }
      = Except.ok { conforms := false, report_graph := expectedReportGraph }
    ∧ (validationResultNodes expectedReportGraph).length = 2
    ∧ resultsWith expectedReportGraph (shNode "MinCountConstraintComponent")
        (dctNode "description") = [Node.blank 1]
    ∧ resultsWith expectedReportGraph (shNode "ClassConstraintComponent")
        (dctNode "publisher") = [Node.blank 3] := by
  have hdet : detectFormat none (some "tests/files/catalog_2_not_valid.ttl")
      = Except.ok Serialization.turtle := rfl
  have hcore : validateCore c
      { body := some [ReqPart.file "tests/files/catalog_2_not_valid.ttl" none none catalogBytes,
          ReqPart.version "2"],
        accept := acc }
      = Except.ok { conforms := false, report_graph := expectedReportGraph } := by
    simp [validateCore, dataParts, List.filter, isDataPart, versionOf,
      List.findSome?, loadDataGraph, hdet, decodeContent, hparse, hshapes, hengine]
  have hproc : processRequest c
      { body := some [ReqPart.file "tests/files/catalog_2_not_valid.ttl" none none catalogBytes,
          ReqPart.version "2"],
        accept := acc }
      = Except.ok ({ conforms := false, report_graph := expectedReportGraph },
          negotiate acc) := by
    unfold processRequest
    rw [hcore]
  refine ⟨?_, hcore, by decide, by decide, by decide⟩
  unfold handle
  rw [hproc]

/-- Collaborators realizing the C5 scenario: every fetch and parse succeeds
and the SHACL engine produces the scenario's report graph. -/
def cC5 : Collaborators :=
  { fetch := fun _ => some []
    parse := fun _ _ => some []
    serializeGraph := fun _ _ => []
    gunzip := fun bs => some bs
    shacl := fun _ _ => { conforms := false, report_graph := expectedReportGraph } }

/-- C5 witness: the scenario at concrete collaborators and bytes. -/
theorem minimal_catalog_two_violations_witness :
    (handle cC5
        { body := some [ReqPart.file "tests/files/catalog_2_not_valid.ttl" none none [9],
            ReqPart.version "2"],
          accept := none }).status = 200
    ∧ validateCore cC5
        { body := some [ReqPart.file "tests/files/catalog_2_not_valid.ttl" none none [9],
            ReqPart.version "2"],
          accept := none }
      = Except.ok { conforms := false, report_graph := expectedReportGraph }
    ∧ (validationResultNodes expectedReportGraph).length = 2
    ∧ resultsWith expectedReportGraph (shNode "MinCountConstraintComponent")
        (dctNode "description") = [Node.blank 1]
    ∧ resultsWith expectedReportGraph (shNode "ClassConstraintComponent")
        (dctNode "publisher") = [Node.blank 3] :=
  minimal_catalog_two_violations cC5 [9] [] [] none rfl rfl rfl
